import Mathlib

/-!
Verification of the Usage Accounting & Rate-Limiting Engine of the
Cost Optimizer backend: the cost calculator
(`app/services/cost_calculator.py`), the multi-window rate limiter
(`app/services/rate_limiter.py` plus the HTTP dependency
`app/auth/rate_limit.py`), and the rollup aggregator
(`app/services/rollups.py`), together with the ingestion boundary
(`app/routers/ingest.py`, `app/schemas/usage.py`).

Python `Decimal` money amounts are embedded as exact rationals `ℚ`
(the source uses `Decimal` precisely to get exact decimal arithmetic);
Python `int` as `ℤ` or `ℕ`; UUIDs as `ℕ`; the Postgres tables as
explicit functional stores, with `INSERT … ON CONFLICT DO UPDATE`
(atomic upsert) as a single atomic update of the store, and a
SQLAlchemy session as a (committed, pending) pair of stores so that
an exception raised before `commit` leaves the committed store
untouched, as the database guarantees.
-/

namespace CostCalc

/-- One entry of `MODEL_PRICING`: per-1K-token USD rates. -/
structure Pricing where
  input : ℚ
  output : ℚ
deriving DecidableEq

/-- The hard-coded pricing table of `cost_calculator.py` (`MODEL_PRICING`),
keyed by model name, rates as exact decimals. -/
def MODEL_PRICING (model_name : String) : Option Pricing :=
  if model_name = "gpt-4" then some ⟨3/100, 6/100⟩
  else if model_name = "gpt-4-turbo" then some ⟨1/100, 3/100⟩
  else if model_name = "gpt-3.5-turbo" then some ⟨5/10000, 15/10000⟩
  else if model_name = "claude-3-opus" then some ⟨15/1000, 75/1000⟩
  else if model_name = "claude-3-sonnet" then some ⟨3/1000, 15/1000⟩
  else if model_name = "claude-3-haiku" then some ⟨25/100000, 125/100000⟩
  else if model_name = "llama-3-70b" then some ⟨59/100000, 79/100000⟩
  else if model_name = "llama-3-8b" then some ⟨5/100000, 8/100000⟩
  else if model_name = "gemini-1.5-pro" then some ⟨125/100000, 5/1000⟩
  else if model_name = "gemini-1.5-flash" then some ⟨75/1000000, 3/10000⟩
  else none

/-- The keys of `MODEL_PRICING` in their (insertion) order. -/
def MODEL_PRICING_keys : List String :=
  ["gpt-4", "gpt-4-turbo", "gpt-3.5-turbo",
   "claude-3-opus", "claude-3-sonnet", "claude-3-haiku",
   "llama-3-70b", "llama-3-8b",
   "gemini-1.5-pro", "gemini-1.5-flash"]

/-- `get_supported_models()`: sorted list of model names with known pricing
(Python `sorted` — a stable sort by lexicographic order). -/
def get_supported_models : List String :=
  MODEL_PRICING_keys.insertionSort (· ≤ ·)

/-- `_ONE_THOUSAND`, the pre-computed divisor. -/
def _ONE_THOUSAND : ℚ := 1000

/-- The `ValueError` raised by `calculate_cost`: its message is built from
the unknown model name and the comma-joined list of supported models. -/
inductive CostError where
  | unknownModel (model_name : String) (supported : List String)
deriving DecidableEq

/-- An ASCII single-quote character, as a string. -/
def squote : String := String.singleton (Char.ofNat 39)

/-- `str(exc)` for the `ValueError` raised on an unknown model. -/
def CostError.message : CostError → String
  | .unknownModel m supported =>
      "Unknown model " ++ squote ++ m ++ squote ++ ". Supported models: "
        ++ String.intercalate ", " supported

/-- `calculate_cost(model_name, input_tokens, output_tokens)`:
looks up the pricing, raises `ValueError` when absent, otherwise returns
`(input_tokens / 1000) * input_rate + (output_tokens / 1000) * output_rate`
in exact decimal arithmetic. -/
def calculate_cost (model_name : String) (input_tokens output_tokens : ℤ) :
    Except CostError ℚ :=
  match MODEL_PRICING model_name with
  | none => .error (.unknownModel model_name get_supported_models)
  | some pricing =>
      let input_cost := ((input_tokens : ℚ) / _ONE_THOUSAND) * pricing.input
      let output_cost := ((output_tokens : ℚ) / _ONE_THOUSAND) * pricing.output
      .ok (input_cost + output_cost)

/-- Whether `calculate_cost` raised. -/
def isError : Except CostError ℚ → Bool
  | .error _ => true
  | .ok _ => false

end CostCalc

namespace Ingest

open CostCalc

/-- The Pydantic request schema `UsageEventCreate` (client payload:
no cost, no total_tokens). -/
structure UsageEventCreate where
  provider : String
  model_name : String
  input_tokens : ℤ
  output_tokens : ℤ
  latency_ms : ℤ
  endpoint : String
  environment : String
  user_id : Option String
  metadata : Option (List (String × String))
deriving DecidableEq

/-- The Pydantic field validation of `UsageEventCreate`
(`min_length`/`max_length`, `ge=0`, the `environment` literal, and the
`user_id` length cap). `extra="forbid"` is structural here: the record has
no extra fields. -/
def UsageEventCreate.validates (p : UsageEventCreate) : Bool :=
  decide (1 ≤ p.provider.length) && decide (p.provider.length ≤ 50) &&
  decide (1 ≤ p.model_name.length) && decide (p.model_name.length ≤ 100) &&
  decide (0 ≤ p.input_tokens) &&
  decide (0 ≤ p.output_tokens) &&
  decide (0 ≤ p.latency_ms) &&
  decide (1 ≤ p.endpoint.length) && decide (p.endpoint.length ≤ 255) &&
  (p.environment == "dev" || p.environment == "prod") &&
  (match p.user_id with
   | none => true
   | some u => decide (u.length ≤ 255))

/-- The ORM record built by the ingestion endpoint (`UsageEvent` as
constructed in `ingest_usage_event`; id/timestamp are server-generated
by the store and not part of the construction). -/
structure StoredEvent where
  provider : String
  model_name : String
  input_tokens : ℤ
  output_tokens : ℤ
  total_tokens : ℤ
  cost_usd : ℚ
  latency_ms : ℤ
  endpoint : String
  environment : String
  user_id : Option String
  metadata : Option (List (String × String))
  project_id : Option ℕ
deriving DecidableEq

/-- The caller-visible outcome of `POST /ingest/usage`: a 201 with the
stored record, or an `HTTPException` with a status code and detail. -/
inductive IngestResponse where
  | created (event : StoredEvent)
  | httpError (status_code : ℕ) (detail : String)
deriving DecidableEq

/-- `ingest_usage_event`: price the payload (mapping `ValueError` to a
422), derive `total_tokens`, build the record scoped to the authenticated
project, persist (a storage failure maps to a 500). -/
def ingest_usage_event (payload : UsageEventCreate) (project_id : ℕ)
    (persistOk : Bool) : IngestResponse :=
  match calculate_cost payload.model_name payload.input_tokens payload.output_tokens with
  | .error exc => .httpError 422 exc.message
  | .ok cost_usd =>
      if persistOk then
        .created
          { provider := payload.provider
            model_name := payload.model_name
            input_tokens := payload.input_tokens
            output_tokens := payload.output_tokens
            total_tokens := payload.input_tokens + payload.output_tokens
            cost_usd := cost_usd
            latency_ms := payload.latency_ms
            endpoint := payload.endpoint
            environment := payload.environment
            user_id := payload.user_id
            metadata := payload.metadata
            project_id := some project_id }
      else .httpError 500 "Failed to store the usage event. Please try again."

end Ingest

namespace Ingest

/-- A representative valid ingestion payload (the documented example values). -/
def samplePayload : UsageEventCreate :=
  { provider := "openai"
    model_name := "gpt-4"
    input_tokens := 500
    output_tokens := 150
    latency_ms := 1200
    endpoint := "/chat/summarize"
    environment := "dev"
    user_id := none
    metadata := none }

end Ingest

namespace RateLimiter

/-- A UTC `datetime` as its component fields (what `.replace` edits). -/
structure Timestamp where
  year : ℕ
  month : ℕ
  day : ℕ
  hour : ℕ
  minute : ℕ
  second : ℕ
  microsecond : ℕ
deriving DecidableEq

/-- `RPM_LIMIT`: requests per minute (free tier). -/
def RPM_LIMIT : ℕ := 60

/-- `RPD_LIMIT`: requests per day (free tier). -/
def RPD_LIMIT : ℕ := 5000

/-- `AED_LIMIT`: AI explanations per day (free tier). -/
def AED_LIMIT : ℕ := 20

/-- Window type constant `"minute"`. -/
def WINDOW_MINUTE : String := "minute"

/-- Window type constant `"day"`. -/
def WINDOW_DAY : String := "day"

/-- Window type constant `"ai_day"`. -/
def WINDOW_AI_DAY : String := "ai_day"

/-- `_minute_bucket`: floor a timestamp to the start of its minute. -/
def _minute_bucket (now : Timestamp) : Timestamp :=
  { now with second := 0, microsecond := 0 }

/-- `_day_bucket`: floor a timestamp to midnight UTC of its day. -/
def _day_bucket (now : Timestamp) : Timestamp :=
  { now with hour := 0, minute := 0, second := 0, microsecond := 0 }

/-- Composite primary key of one `api_key_usage` row. -/
structure UsageKey where
  api_key_id : ℕ
  window_type : String
  window_start : Timestamp
deriving DecidableEq

/-- The contents of the `api_key_usage` table, as the `request_count`
per key. A missing row reads as 0 (`_get_current_count` returns 0 when no
row exists, and the code never stores a 0 count). -/
def Store := UsageKey → ℕ

/-- `_get_current_count`: read the counter for a key/window/bucket. -/
def _get_current_count (s : Store) (api_key_id : ℕ) (window_type : String)
    (window_start : Timestamp) : ℕ :=
  s ⟨api_key_id, window_type, window_start⟩

/-- `_increment`: the atomic
`INSERT … ON CONFLICT DO UPDATE SET request_count = request_count + 1`
upsert — a single insert-if-absent-otherwise-add-1 step on the store. -/
def _increment (s : Store) (api_key_id : ℕ) (window_type : String)
    (window_start : Timestamp) : Store :=
  fun q =>
    if q = ⟨api_key_id, window_type, window_start⟩ then s q + 1 else s q

/-- Any serialization of a batch of `_increment` calls (each call is one
atomic statement at the store, so a concurrent execution is some
interleaving, i.e. some list order). -/
def apply_increments (s : Store) (ops : List UsageKey) : Store :=
  ops.foldl
    (fun st q => _increment st q.api_key_id q.window_type q.window_start) s

/-- An open SQLAlchemy session over Postgres: `committed` is what the
database durably holds; `pending` additionally holds the writes of the
open transaction. `commit` publishes `pending`; an exception raised before
`commit` leaves `committed` untouched (the transaction rolls back). -/
structure Session where
  committed : Store
  pending : Store

/-- A session freshly opened over a committed store. -/
def Session.fresh (s : Store) : Session := ⟨s, s⟩

/-- `await session.execute(upsert)`: may raise (storage failure, modelled
by `ok = false`); on success the write lands in the pending state only. -/
def session_execute_increment (sess : Session) (ok : Bool) (api_key_id : ℕ)
    (window_type : String) (window_start : Timestamp) : Option Session :=
  if ok then
    some { sess with
           pending := _increment sess.pending api_key_id window_type window_start }
  else none

/-- `await session.commit()`: may raise; on success all pending writes
become durable at once. -/
def session_commit (sess : Session) (ok : Bool) : Option Session :=
  if ok then some ⟨sess.pending, sess.pending⟩ else none

/-- The caller-visible status of one admit-and-increment invocation:
normal return, `RateLimitExceeded` with its message, or a propagated
storage exception. -/
inductive RLStatus where
  | admitted
  | denied (reason : String)
  | storageFailure
deriving DecidableEq

/-- `check_and_increment_request`: check RPM then RPD (read-only), then
increment the minute and day counters and commit. The Booleans
fault-inject the two upserts and the commit. Returns the status together
with the store the database durably holds afterwards. -/
def check_and_increment_request (s : Store) (api_key_id : ℕ)
    (now : Timestamp) (inc1Ok inc2Ok commitOk : Bool) : RLStatus × Store :=
  let minute_start := _minute_bucket now
  let day_start := _day_bucket now
  let sess := Session.fresh s
  let rpm_count := _get_current_count sess.pending api_key_id WINDOW_MINUTE minute_start
  if RPM_LIMIT ≤ rpm_count then (.denied "RPM limit exceeded", sess.committed)
  else
    let rpd_count := _get_current_count sess.pending api_key_id WINDOW_DAY day_start
    if RPD_LIMIT ≤ rpd_count then (.denied "RPD limit exceeded", sess.committed)
    else
      match session_execute_increment sess inc1Ok api_key_id WINDOW_MINUTE minute_start with
      | none => (.storageFailure, sess.committed)
      | some s1 =>
          match session_execute_increment s1 inc2Ok api_key_id WINDOW_DAY day_start with
          | none => (.storageFailure, s1.committed)
          | some s2 =>
              match session_commit s2 commitOk with
              | none => (.storageFailure, s2.committed)
              | some s3 => (.admitted, s3.committed)

/-- `check_and_increment_ai_request`: check RPM, RPD and AED (read-only),
then increment the minute, day and ai_day counters and commit. -/
def check_and_increment_ai_request (s : Store) (api_key_id : ℕ)
    (now : Timestamp) (inc1Ok inc2Ok inc3Ok commitOk : Bool) :
    RLStatus × Store :=
  let minute_start := _minute_bucket now
  let day_start := _day_bucket now
  let sess := Session.fresh s
  let rpm_count := _get_current_count sess.pending api_key_id WINDOW_MINUTE minute_start
  if RPM_LIMIT ≤ rpm_count then (.denied "RPM limit exceeded", sess.committed)
  else
    let rpd_count := _get_current_count sess.pending api_key_id WINDOW_DAY day_start
    if RPD_LIMIT ≤ rpd_count then (.denied "RPD limit exceeded", sess.committed)
    else
      let aed_count := _get_current_count sess.pending api_key_id WINDOW_AI_DAY day_start
      if AED_LIMIT ≤ aed_count then
        (.denied "AI explanations/day limit exceeded", sess.committed)
      else
        match session_execute_increment sess inc1Ok api_key_id WINDOW_MINUTE minute_start with
        | none => (.storageFailure, sess.committed)
        | some s1 =>
            match session_execute_increment s1 inc2Ok api_key_id WINDOW_DAY day_start with
            | none => (.storageFailure, s1.committed)
            | some s2 =>
                match session_execute_increment s2 inc3Ok api_key_id WINDOW_AI_DAY day_start with
                | none => (.storageFailure, s2.committed)
                | some s3 =>
                    match session_commit s3 commitOk with
                    | none => (.storageFailure, s3.committed)
                    | some s4 => (.admitted, s4.committed)

/-- An `HTTPException` as the HTTP layer sees it. -/
structure HTTPError where
  status_code : ℕ
  detail : String
deriving DecidableEq

/-- `_RATE_LIMITED`: the one generic 429 raised on any rate-limit denial
(no remaining-quota or retry-after detail). -/
def _RATE_LIMITED : HTTPError :=
  ⟨429, "Rate limit exceeded. Please try again later."⟩

/-- What a caller of the HTTP dependency observes. -/
inductive EnforceOutcome where
  | ok
  | httpError (e : HTTPError)
  | serverFault
deriving DecidableEq

/-- `enforce_rate_limit`: run the RPM+RPD check, catching only
`RateLimitExceeded` and replacing it by the generic `_RATE_LIMITED`;
storage failures propagate. -/
def enforce_rate_limit (s : Store) (api_key_id : ℕ) (now : Timestamp)
    (inc1Ok inc2Ok commitOk : Bool) : EnforceOutcome × Store :=
  match check_and_increment_request s api_key_id now inc1Ok inc2Ok commitOk with
  | (.admitted, s2) => (.ok, s2)
  | (.denied _, s2) => (.httpError _RATE_LIMITED, s2)
  | (.storageFailure, s2) => (.serverFault, s2)

/-- `enforce_ai_rate_limit`: the same for the RPM+RPD+AED check. -/
def enforce_ai_rate_limit (s : Store) (api_key_id : ℕ) (now : Timestamp)
    (inc1Ok inc2Ok inc3Ok commitOk : Bool) : EnforceOutcome × Store :=
  match check_and_increment_ai_request s api_key_id now inc1Ok inc2Ok inc3Ok commitOk with
  | (.admitted, s2) => (.ok, s2)
  | (.denied _, s2) => (.httpError _RATE_LIMITED, s2)
  | (.storageFailure, s2) => (.serverFault, s2)

/-- `n` fault-free invocations of `check_and_increment_request` in a row
for one key at one fixed time (one bucket). -/
def run_requests (api_key_id : ℕ) (now : Timestamp) (s : Store) : ℕ → Store
  | 0 => s
  | n + 1 =>
      (check_and_increment_request (run_requests api_key_id now s n)
        api_key_id now true true true).2

end RateLimiter

namespace Rollups

/-- The timestamp of a usage event: its calendar date (what
`cast(timestamp, Date)` extracts, as an ordinal day number) plus the time
within the day. -/
structure EventTimestamp where
  dateOrd : ℕ
  secondOfDay : ℕ
deriving DecidableEq

/-- `cast(UsageEvent.timestamp, Date)`. -/
def castDate (ts : EventTimestamp) : ℕ := ts.dateOrd

/-- One committed row of `usage_events` (a PricedEvent). -/
structure UsageEvent where
  id : ℕ
  timestamp : EventTimestamp
  provider : String
  model_name : String
  input_tokens : ℕ
  output_tokens : ℕ
  total_tokens : ℕ
  cost_usd : ℚ
  latency_ms : ℕ
  endpoint : String
  environment : String
  user_id : Option String
  project_id : Option ℕ
deriving DecidableEq

/-- The WHERE clause shared by all three rollup queries
(`date_filter, project_filter`): events of the target date that belong to
a project (`project_id IS NOT NULL`). -/
def matchesFilters (target_date : ℕ) (e : UsageEvent) : Bool :=
  castDate e.timestamp == target_date && e.project_id.isSome

/-- Primary key of `daily_cost_rollups`: (date, environment, project_id). -/
structure DailyKey where
  date : ℕ
  environment : String
  project_id : Option ℕ
deriving DecidableEq

/-- Primary key of `model_cost_rollups`:
(date, model_name, environment, project_id). -/
structure ModelKey where
  date : ℕ
  model_name : String
  environment : String
  project_id : Option ℕ
deriving DecidableEq

/-- Primary key of `endpoint_cost_rollups`:
(date, endpoint, environment, project_id). -/
structure EndpointKey where
  date : ℕ
  endpoint : String
  environment : String
  project_id : Option ℕ
deriving DecidableEq

/-- Value columns of a daily or model rollup row. `updated_at` is the
`func.now()` run time stamped on insert and on every conflict update. -/
structure RollupVals where
  total_cost_usd : ℚ
  total_tokens : ℕ
  request_count : ℕ
  updated_at : ℕ
deriving DecidableEq

/-- Value columns of an endpoint rollup row (no token sum). -/
structure EndpointVals where
  total_cost_usd : ℚ
  request_count : ℕ
  updated_at : ℕ
deriving DecidableEq

/-- The `daily_cost_rollups` relation, keyed by its primary key. -/
def DailyTable := DailyKey → Option RollupVals

/-- The `model_cost_rollups` relation. -/
def ModelTable := ModelKey → Option RollupVals

/-- The `endpoint_cost_rollups` relation. -/
def EndpointTable := EndpointKey → Option EndpointVals

/-- A sequence of `INSERT … ON CONFLICT (pk) DO UPDATE` statements, one
per computed group row: each upsert atomically overwrites (or inserts)
the full row at its key. -/
def upsertFold {K V : Type} [DecidableEq K] (t : K → Option V)
    (keys : List K) (val : K → V) : K → Option V :=
  keys.foldl (fun acc k2 => fun q => if q = k2 then some (val k2) else acc q) t

/-- The GROUP BY key of `_rollup_daily_cost` for one event. -/
def dailyKey (e : UsageEvent) : DailyKey :=
  ⟨castDate e.timestamp, e.environment, e.project_id⟩

/-- The GROUP BY key of `_rollup_model_cost` for one event. -/
def modelKey (e : UsageEvent) : ModelKey :=
  ⟨castDate e.timestamp, e.model_name, e.environment, e.project_id⟩

/-- The GROUP BY key of `_rollup_endpoint_cost` for one event. -/
def endpointKey (e : UsageEvent) : EndpointKey :=
  ⟨castDate e.timestamp, e.endpoint, e.environment, e.project_id⟩

/-- `SUM(cost_usd), SUM(total_tokens), COUNT(*)` over one group, stamped
with the run time. -/
def mkRollupVals (g : List UsageEvent) (now : ℕ) : RollupVals :=
  ⟨(g.map (·.cost_usd)).sum, (g.map (·.total_tokens)).sum, g.length, now⟩

/-- `SUM(cost_usd), COUNT(*)` over one group, stamped with the run time. -/
def mkEndpointVals (g : List UsageEvent) (now : ℕ) : EndpointVals :=
  ⟨(g.map (·.cost_usd)).sum, g.length, now⟩

/-- The common shape of the three `_rollup_*` helpers: run the grouped
SELECT over the filtered events (one result row per distinct group key,
aggregating the events of that group), then upsert every result row. -/
def groupRollup {K V : Type} [DecidableEq K] (key : UsageEvent → K)
    (mkVals : List UsageEvent → ℕ → V) (events : List UsageEvent)
    (target_date now : ℕ) (t : K → Option V) : K → Option V :=
  upsertFold t (((events.filter (matchesFilters target_date)).map key).dedup)
    (fun k =>
      mkVals (events.filter (fun e => matchesFilters target_date e && key e == k)) now)

/-- `_rollup_daily_cost`: aggregate into `daily_cost_rollups`, grouped by
(date, environment, project_id). -/
def _rollup_daily_cost (events : List UsageEvent) (target_date now : ℕ)
    (t : DailyTable) : DailyTable :=
  groupRollup dailyKey mkRollupVals events target_date now t

/-- `_rollup_model_cost`: aggregate into `model_cost_rollups`, grouped by
(date, model_name, environment, project_id). -/
def _rollup_model_cost (events : List UsageEvent) (target_date now : ℕ)
    (t : ModelTable) : ModelTable :=
  groupRollup modelKey mkRollupVals events target_date now t

/-- `_rollup_endpoint_cost`: aggregate into `endpoint_cost_rollups`,
grouped by (date, endpoint, environment, project_id). -/
def _rollup_endpoint_cost (events : List UsageEvent) (target_date now : ℕ)
    (t : EndpointTable) : EndpointTable :=
  groupRollup endpointKey mkEndpointVals events target_date now t

/-- The three rollup relations together. -/
structure RollupState where
  daily : DailyTable
  models : ModelTable
  endpoints : EndpointTable

/-- `run_daily_rollups(session, target_date)`: recompute all three rollup
relations for one date from the event log, committing once. `now` is the
run time (`func.now()`). -/
def run_daily_rollups (events : List UsageEvent) (target_date now : ℕ)
    (st : RollupState) : RollupState :=
  ⟨_rollup_daily_cost events target_date now st.daily,
   _rollup_model_cost events target_date now st.models,
   _rollup_endpoint_cost events target_date now st.endpoints⟩

/-- The events a daily rollup row keyed `k` is accountable for: events of
the row's own date, with a project, in the row's group. -/
def dailyGroup (events : List UsageEvent) (k : DailyKey) : List UsageEvent :=
  events.filter (fun e => matchesFilters k.date e && dailyKey e == k)

/-- The events a model rollup row keyed `k` is accountable for. -/
def modelGroup (events : List UsageEvent) (k : ModelKey) : List UsageEvent :=
  events.filter (fun e => matchesFilters k.date e && modelKey e == k)

/-- The events an endpoint rollup row keyed `k` is accountable for. -/
def endpointGroup (events : List UsageEvent) (k : EndpointKey) : List UsageEvent :=
  events.filter (fun e => matchesFilters k.date e && endpointKey e == k)

/-- A daily rollup row carries exactly the cost sum, token sum and event
count of its group. -/
def dailyRowCorrect (events : List UsageEvent) (k : DailyKey)
    (v : RollupVals) : Prop :=
  v.total_cost_usd = ((dailyGroup events k).map (·.cost_usd)).sum ∧
  v.total_tokens = ((dailyGroup events k).map (·.total_tokens)).sum ∧
  v.request_count = (dailyGroup events k).length

/-- A model rollup row carries exactly the aggregates of its group. -/
def modelRowCorrect (events : List UsageEvent) (k : ModelKey)
    (v : RollupVals) : Prop :=
  v.total_cost_usd = ((modelGroup events k).map (·.cost_usd)).sum ∧
  v.total_tokens = ((modelGroup events k).map (·.total_tokens)).sum ∧
  v.request_count = (modelGroup events k).length

/-- An endpoint rollup row carries exactly the aggregates of its group. -/
def endpointRowCorrect (events : List UsageEvent) (k : EndpointKey)
    (v : EndpointVals) : Prop :=
  v.total_cost_usd = ((endpointGroup events k).map (·.cost_usd)).sum ∧
  v.request_count = (endpointGroup events k).length

/-- Every present daily rollup row is correct for the event log. -/
def DailyCorrect (events : List UsageEvent) (t : DailyTable) : Prop :=
  ∀ k v, t k = some v → dailyRowCorrect events k v

/-- Every present model rollup row is correct for the event log. -/
def ModelCorrect (events : List UsageEvent) (t : ModelTable) : Prop :=
  ∀ k v, t k = some v → modelRowCorrect events k v

/-- Every present endpoint rollup row is correct for the event log. -/
def EndpointCorrect (events : List UsageEvent) (t : EndpointTable) : Prop :=
  ∀ k v, t k = some v → endpointRowCorrect events k v

/-- The daily table with the `updated_at` column projected away. -/
def dailyVals (t : DailyTable) : DailyKey → Option (ℚ × ℕ × ℕ) :=
  fun k => (t k).map (fun v => (v.total_cost_usd, v.total_tokens, v.request_count))

/-- The model table with the `updated_at` column projected away. -/
def modelVals (t : ModelTable) : ModelKey → Option (ℚ × ℕ × ℕ) :=
  fun k => (t k).map (fun v => (v.total_cost_usd, v.total_tokens, v.request_count))

/-- The endpoint table with the `updated_at` column projected away. -/
def endpointVals (t : EndpointTable) : EndpointKey → Option (ℚ × ℕ) :=
  fun k => (t k).map (fun v => (v.total_cost_usd, v.request_count))

/-- Empty rollup relations (e.g. right after migration). -/
def emptyState : RollupState :=
  ⟨fun _ => none, fun _ => none, fun _ => none⟩

/-- The documented example event: gpt-4, 500 input and 150 output tokens,
prod, owned by project 1, on day 0. -/
def sampleEvent : UsageEvent :=
  ⟨0, ⟨0, 0⟩, "openai", "gpt-4", 500, 150, 650, 3/125, 1200,
   "/chat/summarize", "prod", none, some 1⟩

end Rollups

namespace CostCalc

set_option maxHeartbeats 1000000 in
/-- Every rate in the pricing table is strictly positive. -/
theorem pricing_pos (m : String) (p : Pricing) (h : MODEL_PRICING m = some p) :
    0 < p.input ∧ 0 < p.output := by
  unfold MODEL_PRICING at h
  split_ifs at h <;>
    first
      | exact Option.noConfusion h
      | (injection h with h; subst h; exact ⟨by norm_num, by norm_num⟩)

set_option maxHeartbeats 1600000 in
/-- A pricing lookup succeeds exactly for the keys of the table. -/
theorem MODEL_PRICING_isSome_iff (k : String) :
    (MODEL_PRICING k).isSome = true ↔ k ∈ MODEL_PRICING_keys := by
  constructor
  · intro h
    unfold MODEL_PRICING at h
    split_ifs at h with h1 h2 h3 h4 h5 h6 h7 h8 h9 h10
    · subst h1; simp [ MODEL_PRICING_keys]
    · subst h2; simp [ MODEL_PRICING_keys]
    · subst h3; simp [ MODEL_PRICING_keys]
    · subst h4; simp [ MODEL_PRICING_keys]
    · subst h5; simp [ MODEL_PRICING_keys]
    · subst h6; simp [ MODEL_PRICING_keys]
    · subst h7; simp [ MODEL_PRICING_keys]
    · subst h8; simp [ MODEL_PRICING_keys]
    · subst h9; simp [ MODEL_PRICING_keys]
    · subst h10; simp [ MODEL_PRICING_keys]
    · simp at h
  · intro h
    simp only [ MODEL_PRICING_keys, List.mem_cons, List.not_mem_nil, or_false] at h
    rcases h with rfl | rfl | rfl | rfl | rfl | rfl | rfl | rfl | rfl | rfl
    all_goals rfl

/-- Membership in `get_supported_models` coincides with membership in the
pricing table: `sorted` permutes the key list. -/
theorem mem_get_supported_models_iff (k : String) :
    k ∈ get_supported_models ↔ (MODEL_PRICING k).isSome = true := by
  rw [ MODEL_PRICING_isSome_iff]
  exact (List.perm_insertionSort (· ≤ ·) MODEL_PRICING_keys).mem_iff

/-- C1: for every model name `m` present in the pricing table and all token
counts `i, o ≥ 0`, `calculate_cost m i o` returns exactly
`(i/1000) * input_rate(m) + (o/1000) * output_rate(m)`, computed in exact
decimal (rational) arithmetic, and the returned cost is non-negative. -/
theorem calculate_cost_exact_and_nonneg (m : String) (p : Pricing)
    (hm : MODEL_PRICING m = some p) (i o : ℤ) (hi : 0 ≤ i) (ho : 0 ≤ o) :
    calculate_cost m i o =
      .ok (((i : ℚ) / 1000) * p.input + ((o : ℚ) / 1000) * p.output) ∧
    0 ≤ ((i : ℚ) / 1000) * p.input + ((o : ℚ) / 1000) * p.output := by
  obtain ⟨hpi, hpo⟩ := pricing_pos m p hm
  refine ⟨by simp [calculate_cost, hm, _ONE_THOUSAND], ?_⟩
  have hiq : (0 : ℚ) ≤ (i : ℚ) := by exact_mod_cast hi
  have hoq : (0 : ℚ) ≤ (o : ℚ) := by exact_mod_cast ho
  have h1 : 0 ≤ ((i : ℚ) / 1000) * p.input :=
    mul_nonneg (div_nonneg hiq (by norm_num)) hpi.le
  have h2 : 0 ≤ ((o : ℚ) / 1000) * p.output :=
    mul_nonneg (div_nonneg hoq (by norm_num)) hpo.le
  linarith

/-- Witness for C1 at the documented example: gpt-4 with 500 input and 150
output tokens costs 500/1000·0.03 + 150/1000·0.06 = 0.024 USD. -/
theorem calculate_cost_exact_and_nonneg_witness :
    (calculate_cost "gpt-4" 500 150 =
      .ok ((((500 : ℤ) : ℚ) / 1000) * (3/100 : ℚ) + (((150 : ℤ) : ℚ) / 1000) * (6/100 : ℚ)) ∧
     (0 : ℚ) ≤ (((500 : ℤ) : ℚ) / 1000) * (3/100 : ℚ) + (((150 : ℤ) : ℚ) / 1000) * (6/100 : ℚ)) ∧
    (((500 : ℤ) : ℚ) / 1000) * (3/100 : ℚ) + (((150 : ℤ) : ℚ) / 1000) * (6/100 : ℚ) = 24/1000 :=
  ⟨calculate_cost_exact_and_nonneg "gpt-4" ⟨3/100, 6/100⟩ rfl 500 150
      (by norm_num) (by norm_num),
   by norm_num⟩

/-- C6: for a model name absent from the pricing table, `calculate_cost`
fails with an error carrying the full list of known model names (never a
silent default cost), and the ingestion endpoint maps this failure to a
client-correctable HTTP 422, never a server fault. -/
theorem unknown_model_fails_with_supported_list (m : String) (i o : ℤ)
    (hm : MODEL_PRICING m = none) :
    calculate_cost m i o = .error (.unknownModel m get_supported_models) ∧
    (∀ k : String, k ∈ get_supported_models ↔ (MODEL_PRICING k).isSome = true) ∧
    (∀ (payload : Ingest.UsageEventCreate) (pid : ℕ) (persistOk : Bool),
       payload.model_name = m →
       Ingest.ingest_usage_event payload pid persistOk =
         .httpError 422 (CostError.message (.unknownModel m get_supported_models))) := by
  refine ⟨by simp [calculate_cost, hm], mem_get_supported_models_iff, ?_⟩
  intro payload pid persistOk hname
  simp [Ingest.ingest_usage_event, hname, calculate_cost, hm]

/-- Witness for C6: "gpt-5" has no pricing, so pricing it fails and
ingesting it yields a 422. -/
theorem unknown_model_fails_with_supported_list_witness :
    MODEL_PRICING "gpt-5" = none ∧
    calculate_cost "gpt-5" 1 2 = .error (.unknownModel "gpt-5" get_supported_models) :=
  ⟨rfl, (unknown_model_fails_with_supported_list "gpt-5" 1 2 rfl).1⟩

/-- C10: `calculate_cost` raises exactly when the model is unknown; it
performs no range check on token counts, so a known model with negative
token counts yields a negative cost without failing; non-negativity is
enforced only by the ingestion schema, whose validation forces
`input_tokens ≥ 0` and `output_tokens ≥ 0`. -/
theorem calculate_cost_no_range_check :
    (∀ (m : String) (i o : ℤ),
       isError (calculate_cost m i o) = true ↔ MODEL_PRICING m = none) ∧
    (∀ (m : String) (p : Pricing), MODEL_PRICING m = some p →
       ∀ i o : ℤ, i < 0 → o < 0 →
       calculate_cost m i o =
         .ok (((i : ℚ) / 1000) * p.input + ((o : ℚ) / 1000) * p.output) ∧
       ((i : ℚ) / 1000) * p.input + ((o : ℚ) / 1000) * p.output < 0) ∧
    (∀ p : Ingest.UsageEventCreate, p.validates = true →
       0 ≤ p.input_tokens ∧ 0 ≤ p.output_tokens) := by
  refine ⟨?_, ?_, ?_⟩
  · intro m i o
    rcases h : MODEL_PRICING m with _ | p <;>
      simp [calculate_cost, h, isError]
  · intro m p hm i o hi ho
    obtain ⟨hpi, hpo⟩ := pricing_pos m p hm
    refine ⟨by simp [calculate_cost, hm, _ONE_THOUSAND], ?_⟩
    have hiq : (i : ℚ) < 0 := by exact_mod_cast hi
    have hoq : (o : ℚ) < 0 := by exact_mod_cast ho
    have h1 : ((i : ℚ) / 1000) * p.input < 0 :=
      mul_neg_of_neg_of_pos (div_neg_of_neg_of_pos hiq (by norm_num)) hpi
    have h2 : ((o : ℚ) / 1000) * p.output < 0 :=
      mul_neg_of_neg_of_pos (div_neg_of_neg_of_pos hoq (by norm_num)) hpo
    linarith
  · intro p hp
    simp only [Ingest.UsageEventCreate.validates, Bool.and_eq_true,
      decide_eq_true_eq] at hp
    exact ⟨hp.1.1.1.1.1.1.2, hp.1.1.1.1.1.2⟩

/-- Witness for C10: an unknown model errors; gpt-4 with (-1, -1) tokens
returns a negative cost without failing; the sample payload validates and
has non-negative token counts. -/
theorem calculate_cost_no_range_check_witness :
    isError (calculate_cost "gpt-5" 3 4) = true ∧
    (calculate_cost "gpt-4" (-1) (-1) =
       .ok ((((-1 : ℤ) : ℚ) / 1000) * (3/100 : ℚ) + (((-1 : ℤ) : ℚ) / 1000) * (6/100 : ℚ)) ∧
     (((-1 : ℤ) : ℚ) / 1000) * (3/100 : ℚ) + (((-1 : ℤ) : ℚ) / 1000) * (6/100 : ℚ) < 0) ∧
    (0 ≤ Ingest.samplePayload.input_tokens ∧ 0 ≤ Ingest.samplePayload.output_tokens) :=
  ⟨(calculate_cost_no_range_check.1 "gpt-5" 3 4).mpr rfl,
   calculate_cost_no_range_check.2.1 "gpt-4" ⟨3/100, 6/100⟩ rfl (-1) (-1)
     (by norm_num) (by norm_num),
   calculate_cost_no_range_check.2.2 Ingest.samplePayload (by decide)⟩

end CostCalc

namespace RateLimiter

/-- Structure eta for counter keys. -/
theorem UsageKey.eta (a : UsageKey) :
    (⟨a.api_key_id, a.window_type, a.window_start⟩ : UsageKey) = a := rfl

/-- Reading the store after one atomic upsert-add. -/
theorem _increment_apply (s : Store) (k : ℕ) (wt : String) (ws : Timestamp)
    (q : UsageKey) :
    _increment s k wt ws q = if q = ⟨k, wt, ws⟩ then s q + 1 else s q := rfl

/-- Unfolding one step of a batch of increments. -/
theorem apply_increments_cons (s : Store) (a : UsageKey) (l : List UsageKey) :
    apply_increments s (a :: l) =
      apply_increments
        (_increment s a.api_key_id a.window_type a.window_start) l := rfl

/-- C9: each counter increment is the single atomic
insert-if-absent-otherwise-add-1 upsert `_increment` at the store (not an
application-level read-modify-write), so any serialization of N concurrent
successful increments of one (owner, window, bucket) key leaves its
counter at exactly initial + N — no lost updates, and two simultaneous
first increments can never both leave the counter at 1 — while every other
key is untouched by each increment. -/
theorem increment_no_lost_updates :
    (∀ (s : Store) (ops : List UsageKey) (q : UsageKey),
        apply_increments s ops q = s q + ops.count q) ∧
    (∀ (s : Store) (k : ℕ) (wt : String) (ws : Timestamp),
        _increment s k wt ws ⟨k, wt, ws⟩ = s ⟨k, wt, ws⟩ + 1 ∧
        ∀ q : UsageKey, q ≠ ⟨k, wt, ws⟩ → _increment s k wt ws q = s q) := by
  constructor
  · intro s ops
    induction ops generalizing s with
    | nil => intro q; simp [apply_increments]
    | cons a l ih =>
        intro q
        rw [apply_increments_cons, ih]
        rw [_increment_apply, UsageKey.eta]
        by_cases hq : q = a
        · subst hq
          simp [List.count_cons]
          omega
        · simp [List.count_cons, hq]
  · intro s k wt ws
    refine ⟨by simp [_increment_apply], ?_⟩
    intro q hq
    simp [_increment_apply, hq]

/-- Witness for C9: two serialized increments of one brand-new key leave
its counter at exactly 2 (never 1), and an unrelated key stays at 0. -/
theorem increment_no_lost_updates_witness :
    apply_increments (fun _ => 0)
        [⟨1, "minute", ⟨2026, 2, 27, 10, 48, 0, 0⟩⟩,
         ⟨1, "minute", ⟨2026, 2, 27, 10, 48, 0, 0⟩⟩]
        ⟨1, "minute", ⟨2026, 2, 27, 10, 48, 0, 0⟩⟩ = 2 ∧
    _increment (fun _ => 0) 1 "minute" ⟨2026, 2, 27, 10, 48, 0, 0⟩
        ⟨2, "day", ⟨2026, 2, 27, 0, 0, 0, 0⟩⟩ = 0 := by
  constructor
  · have h := increment_no_lost_updates.1 (fun _ => 0)
      [⟨1, "minute", ⟨2026, 2, 27, 10, 48, 0, 0⟩⟩,
       ⟨1, "minute", ⟨2026, 2, 27, 10, 48, 0, 0⟩⟩]
      ⟨1, "minute", ⟨2026, 2, 27, 10, 48, 0, 0⟩⟩
    rw [h]
    decide
  · exact (increment_no_lost_updates.2 (fun _ => 0) 1 "minute"
      ⟨2026, 2, 27, 10, 48, 0, 0⟩).2
      ⟨2, "day", ⟨2026, 2, 27, 0, 0, 0, 0⟩⟩ (by decide)

end RateLimiter

namespace RateLimiter

/-- Normal form of `check_and_increment_request`: deny on the first window
at or over its limit (committing nothing), fail hard if any upsert or the
commit fails (committing nothing), otherwise commit both increments. -/
theorem check_request_eq (s : Store) (k : ℕ) (now : Timestamp)
    (f1 f2 fc : Bool) :
    check_and_increment_request s k now f1 f2 fc =
      if RPM_LIMIT ≤ s ⟨k, WINDOW_MINUTE, _minute_bucket now⟩ then
        (.denied "RPM limit exceeded", s)
      else if RPD_LIMIT ≤ s ⟨k, WINDOW_DAY, _day_bucket now⟩ then
        (.denied "RPD limit exceeded", s)
      else if f1 && f2 && fc then
        (.admitted,
         _increment (_increment s k WINDOW_MINUTE (_minute_bucket now))
           k WINDOW_DAY (_day_bucket now))
      else (.storageFailure, s) := by
  unfold check_and_increment_request session_execute_increment session_commit
    Session.fresh _get_current_count
  cases f1 <;> cases f2 <;> cases fc <;> simp

/-- Normal form of `check_and_increment_ai_request`, analogously over the
three windows. -/
theorem check_ai_request_eq (s : Store) (k : ℕ) (now : Timestamp)
    (f1 f2 f3 fc : Bool) :
    check_and_increment_ai_request s k now f1 f2 f3 fc =
      if RPM_LIMIT ≤ s ⟨k, WINDOW_MINUTE, _minute_bucket now⟩ then
        (.denied "RPM limit exceeded", s)
      else if RPD_LIMIT ≤ s ⟨k, WINDOW_DAY, _day_bucket now⟩ then
        (.denied "RPD limit exceeded", s)
      else if AED_LIMIT ≤ s ⟨k, WINDOW_AI_DAY, _day_bucket now⟩ then
        (.denied "AI explanations/day limit exceeded", s)
      else if f1 && f2 && f3 && fc then
        (.admitted,
         _increment
           (_increment (_increment s k WINDOW_MINUTE (_minute_bucket now))
             k WINDOW_DAY (_day_bucket now))
           k WINDOW_AI_DAY (_day_bucket now))
      else (.storageFailure, s) := by
  unfold check_and_increment_ai_request session_execute_increment
    session_commit Session.fresh _get_current_count
  cases f1 <;> cases f2 <;> cases f3 <;> cases fc <;> simp

end RateLimiter

namespace RateLimiter

/-- The minute and day rows of one invocation are distinct keys. -/
theorem minute_key_ne_day_key (k k2 : ℕ) (now now2 : Timestamp) :
    (⟨k, WINDOW_MINUTE, _minute_bucket now⟩ : UsageKey) ≠
      ⟨k2, WINDOW_DAY, _day_bucket now2⟩ := by
  intro h
  have h2 := congrArg UsageKey.window_type h
  simp [WINDOW_MINUTE, WINDOW_DAY] at h2

/-- The day and ai_day rows of one invocation are distinct keys. -/
theorem day_key_ne_ai_day_key (k k2 : ℕ) (now now2 : Timestamp) :
    (⟨k, WINDOW_DAY, _day_bucket now⟩ : UsageKey) ≠
      ⟨k2, WINDOW_AI_DAY, _day_bucket now2⟩ := by
  intro h
  have h2 := congrArg UsageKey.window_type h
  simp [WINDOW_DAY, WINDOW_AI_DAY] at h2

/-- The minute and ai_day rows of one invocation are distinct keys. -/
theorem minute_key_ne_ai_day_key (k k2 : ℕ) (now now2 : Timestamp) :
    (⟨k, WINDOW_MINUTE, _minute_bucket now⟩ : UsageKey) ≠
      ⟨k2, WINDOW_AI_DAY, _day_bucket now2⟩ := by
  intro h
  have h2 := congrArg UsageKey.window_type h
  simp [WINDOW_MINUTE, WINDOW_AI_DAY] at h2

/-- One unfolding step of `run_requests`. -/
theorem run_requests_succ (k : ℕ) (now : Timestamp) (s : Store) (n : ℕ) :
    run_requests k now s (n + 1) =
      (check_and_increment_request (run_requests k now s n)
        k now true true true).2 := rfl

/-- After `n ≤ RPM_LIMIT` fault-free invocations in one fresh bucket, the
minute and day counters both hold exactly `n`. -/
theorem run_requests_counts (k : ℕ) (now : Timestamp) :
    ∀ n : ℕ, n ≤ RPM_LIMIT →
      run_requests k now (fun _ => 0) n ⟨k, WINDOW_MINUTE, _minute_bucket now⟩ = n ∧
      run_requests k now (fun _ => 0) n ⟨k, WINDOW_DAY, _day_bucket now⟩ = n := by
  intro n
  induction n with
  | zero => intro _; exact ⟨rfl, rfl⟩
  | succ m ih =>
      intro hle
      obtain ⟨hmin, hday⟩ := ih (Nat.le_of_succ_le hle)
      have h1 : run_requests k now (fun _ => 0) m
          ⟨k, WINDOW_MINUTE, _minute_bucket now⟩ < RPM_LIMIT := by
        rw [hmin]; exact Nat.lt_of_succ_le hle
      have h2 : run_requests k now (fun _ => 0) m
          ⟨k, WINDOW_DAY, _day_bucket now⟩ < RPD_LIMIT := by
        rw [hday]
        have : m < RPM_LIMIT := Nat.lt_of_succ_le hle
        simp only [RPM_LIMIT, RPD_LIMIT] at *
        omega
      rw [run_requests_succ, check_request_eq,
        if_neg (Nat.not_le.mpr h1), if_neg (Nat.not_le.mpr h2)]
      simp only [Bool.and_self, if_true]
      refine ⟨?_, ?_⟩
      · rw [_increment_apply, if_neg (minute_key_ne_day_key k k now now),
          _increment_apply, if_pos rfl, hmin]
      · rw [_increment_apply, if_pos rfl, _increment_apply,
          if_neg (Ne.symm (minute_key_ne_day_key k k now now)), hday]

end RateLimiter

namespace RateLimiter

/-- C2: for every owner credential and window, a bucket counter at or
above its configured limit denies with `RateLimitExceeded` while counters
strictly below every limit admit; a denial performs no increments (the
committed store is returned unchanged, so a tripped window stays exactly
at its value); an admission increments each window of the window set by
exactly one; and from a fresh bucket exactly `RPM_LIMIT` requests are
admitted — leaving the minute and day counters at exactly the limit —
after which the next request in the same bucket is denied with every
counter unchanged (the tripped window stays exactly at `RPM_LIMIT`). -/
theorem at_limit_denies_below_admits (s : Store) (k : ℕ) (now : Timestamp) :
    (RPM_LIMIT ≤ s ⟨k, WINDOW_MINUTE, _minute_bucket now⟩ →
       check_and_increment_request s k now true true true =
         (.denied "RPM limit exceeded", s)) ∧
    (s ⟨k, WINDOW_MINUTE, _minute_bucket now⟩ < RPM_LIMIT →
     RPD_LIMIT ≤ s ⟨k, WINDOW_DAY, _day_bucket now⟩ →
       check_and_increment_request s k now true true true =
         (.denied "RPD limit exceeded", s)) ∧
    (s ⟨k, WINDOW_MINUTE, _minute_bucket now⟩ < RPM_LIMIT →
     s ⟨k, WINDOW_DAY, _day_bucket now⟩ < RPD_LIMIT →
       (check_and_increment_request s k now true true true).1 = .admitted ∧
       (check_and_increment_request s k now true true true).2
           ⟨k, WINDOW_MINUTE, _minute_bucket now⟩ =
         s ⟨k, WINDOW_MINUTE, _minute_bucket now⟩ + 1 ∧
       (check_and_increment_request s k now true true true).2
           ⟨k, WINDOW_DAY, _day_bucket now⟩ =
         s ⟨k, WINDOW_DAY, _day_bucket now⟩ + 1) ∧
    (s ⟨k, WINDOW_MINUTE, _minute_bucket now⟩ < RPM_LIMIT →
     s ⟨k, WINDOW_DAY, _day_bucket now⟩ < RPD_LIMIT →
     AED_LIMIT ≤ s ⟨k, WINDOW_AI_DAY, _day_bucket now⟩ →
       check_and_increment_ai_request s k now true true true true =
         (.denied "AI explanations/day limit exceeded", s)) ∧
    (s ⟨k, WINDOW_MINUTE, _minute_bucket now⟩ < RPM_LIMIT →
     s ⟨k, WINDOW_DAY, _day_bucket now⟩ < RPD_LIMIT →
     s ⟨k, WINDOW_AI_DAY, _day_bucket now⟩ < AED_LIMIT →
       (check_and_increment_ai_request s k now true true true true).1 = .admitted ∧
       (check_and_increment_ai_request s k now true true true true).2
           ⟨k, WINDOW_MINUTE, _minute_bucket now⟩ =
         s ⟨k, WINDOW_MINUTE, _minute_bucket now⟩ + 1 ∧
       (check_and_increment_ai_request s k now true true true true).2
           ⟨k, WINDOW_DAY, _day_bucket now⟩ =
         s ⟨k, WINDOW_DAY, _day_bucket now⟩ + 1 ∧
       (check_and_increment_ai_request s k now true true true true).2
           ⟨k, WINDOW_AI_DAY, _day_bucket now⟩ =
         s ⟨k, WINDOW_AI_DAY, _day_bucket now⟩ + 1) ∧
    (∀ n : ℕ, n ≤ RPM_LIMIT →
       run_requests k now (fun _ => 0) n ⟨k, WINDOW_MINUTE, _minute_bucket now⟩ = n ∧
       run_requests k now (fun _ => 0) n ⟨k, WINDOW_DAY, _day_bucket now⟩ = n) ∧
    (∀ n : ℕ, n < RPM_LIMIT →
       (check_and_increment_request (run_requests k now (fun _ => 0) n)
         k now true true true).1 = .admitted) ∧
    (check_and_increment_request (run_requests k now (fun _ => 0) RPM_LIMIT)
       k now true true true =
     (.denied "RPM limit exceeded", run_requests k now (fun _ => 0) RPM_LIMIT)) := by
  refine ⟨?_, ?_, ?_, ?_, ?_, run_requests_counts k now, ?_, ?_⟩
  · intro h
    rw [check_request_eq, if_pos h]
  · intro h1 h2
    rw [check_request_eq, if_neg (Nat.not_le.mpr h1), if_pos h2]
  · intro h1 h2
    rw [check_request_eq, if_neg (Nat.not_le.mpr h1), if_neg (Nat.not_le.mpr h2)]
    simp only [Bool.and_self, if_true]
    refine ⟨trivial, ?_, ?_⟩
    · rw [_increment_apply, if_neg (minute_key_ne_day_key k k now now),
        _increment_apply, if_pos rfl]
    · rw [_increment_apply, if_pos rfl, _increment_apply,
        if_neg (Ne.symm (minute_key_ne_day_key k k now now))]
  · intro h1 h2 h3
    rw [check_ai_request_eq, if_neg (Nat.not_le.mpr h1),
      if_neg (Nat.not_le.mpr h2), if_pos h3]
  · intro h1 h2 h3
    rw [check_ai_request_eq, if_neg (Nat.not_le.mpr h1),
      if_neg (Nat.not_le.mpr h2), if_neg (Nat.not_le.mpr h3)]
    simp only [Bool.and_self, if_true]
    refine ⟨trivial, ?_, ?_, ?_⟩
    · rw [_increment_apply, if_neg (minute_key_ne_ai_day_key k k now now),
        _increment_apply, if_neg (minute_key_ne_day_key k k now now),
        _increment_apply, if_pos rfl]
    · rw [_increment_apply, if_neg (day_key_ne_ai_day_key k k now now),
        _increment_apply, if_pos rfl, _increment_apply,
        if_neg (Ne.symm (minute_key_ne_day_key k k now now))]
    · rw [_increment_apply, if_pos rfl, _increment_apply,
        if_neg (Ne.symm (day_key_ne_ai_day_key k k now now)), _increment_apply,
        if_neg (Ne.symm (minute_key_ne_ai_day_key k k now now))]
  · intro n hn
    obtain ⟨hmin, hday⟩ := run_requests_counts k now n (Nat.le_of_lt hn)
    have h1 : run_requests k now (fun _ => 0) n
        ⟨k, WINDOW_MINUTE, _minute_bucket now⟩ < RPM_LIMIT := by rw [hmin]; exact hn
    have h2 : run_requests k now (fun _ => 0) n
        ⟨k, WINDOW_DAY, _day_bucket now⟩ < RPD_LIMIT := by
      rw [hday]
      simp only [RPM_LIMIT, RPD_LIMIT] at hn ⊢
      omega
    rw [check_request_eq, if_neg (Nat.not_le.mpr h1), if_neg (Nat.not_le.mpr h2)]
    rfl
  · obtain ⟨hmin, _⟩ := run_requests_counts k now RPM_LIMIT (Nat.le_refl _)
    rw [check_request_eq, if_pos (by rw [hmin])]

/-- Witness for C2: with all counters at 60 the request is denied and the
store unchanged; with all counters at 0 it is admitted; from a fresh
bucket, 60 requests leave both counters at 60 and the 61st request in the
bucket is denied, leaving the store exactly as it was. -/
theorem at_limit_denies_below_admits_witness :
    (check_and_increment_request (fun _ => 60) 7 ⟨2026, 2, 27, 10, 48, 30, 0⟩
       true true true = (.denied "RPM limit exceeded", fun _ => 60)) ∧
    ((check_and_increment_request (fun _ => 0) 7 ⟨2026, 2, 27, 10, 48, 30, 0⟩
       true true true).1 = .admitted) ∧
    (run_requests 7 ⟨2026, 2, 27, 10, 48, 30, 0⟩ (fun _ => 0) 60
       ⟨7, WINDOW_MINUTE, _minute_bucket ⟨2026, 2, 27, 10, 48, 30, 0⟩⟩ = 60) ∧
    (check_and_increment_request
       (run_requests 7 ⟨2026, 2, 27, 10, 48, 30, 0⟩ (fun _ => 0) 60)
       7 ⟨2026, 2, 27, 10, 48, 30, 0⟩ true true true =
     (.denied "RPM limit exceeded",
      run_requests 7 ⟨2026, 2, 27, 10, 48, 30, 0⟩ (fun _ => 0) 60)) := by
  refine ⟨?_, ?_, ?_, ?_⟩
  · exact (at_limit_denies_below_admits (fun _ => 60) 7
      ⟨2026, 2, 27, 10, 48, 30, 0⟩).1 (by norm_num [RPM_LIMIT])
  · exact ((at_limit_denies_below_admits (fun _ => 0) 7
      ⟨2026, 2, 27, 10, 48, 30, 0⟩).2.2.1 (by norm_num [RPM_LIMIT])
      (by norm_num [RPD_LIMIT])).1
  · exact ((at_limit_denies_below_admits (fun _ => 0) 7
      ⟨2026, 2, 27, 10, 48, 30, 0⟩).2.2.2.2.2.1 60 (by norm_num [RPM_LIMIT])).1
  · exact (at_limit_denies_below_admits (fun _ => 0) 7
      ⟨2026, 2, 27, 10, 48, 30, 0⟩).2.2.2.2.2.2.2

end RateLimiter

namespace RateLimiter

/-- C5: within one invocation the window-set increments commit as one
atomic unit: the committed store is either exactly the input store or
exactly the store with every window of the set incremented — never a
partial mix; any non-admitted outcome commits nothing; an injected
storage failure during increment or commit prevents admission (no silent
admission); and when every check passes but a failure is injected, the
outcome is `storageFailure` with nothing committed — a hard failure
distinct from every rate-limit denial. -/
theorem increments_commit_atomically (s : Store) (k : ℕ) (now : Timestamp)
    (f1 f2 f3 fc : Bool) :
    ((check_and_increment_request s k now f1 f2 fc).2 = s ∨
     (check_and_increment_request s k now f1 f2 fc).2 =
       _increment (_increment s k WINDOW_MINUTE (_minute_bucket now))
         k WINDOW_DAY (_day_bucket now)) ∧
    ((check_and_increment_request s k now f1 f2 fc).1 ≠ .admitted →
       (check_and_increment_request s k now f1 f2 fc).2 = s) ∧
    ((f1 = false ∨ f2 = false ∨ fc = false) →
       (check_and_increment_request s k now f1 f2 fc).1 ≠ .admitted) ∧
    (s ⟨k, WINDOW_MINUTE, _minute_bucket now⟩ < RPM_LIMIT →
     s ⟨k, WINDOW_DAY, _day_bucket now⟩ < RPD_LIMIT →
     (f1 = false ∨ f2 = false ∨ fc = false) →
       check_and_increment_request s k now f1 f2 fc = (.storageFailure, s)) ∧
    (∀ reason : String, (RLStatus.storageFailure : RLStatus) ≠ .denied reason) ∧
    ((check_and_increment_ai_request s k now f1 f2 f3 fc).2 = s ∨
     (check_and_increment_ai_request s k now f1 f2 f3 fc).2 =
       _increment
         (_increment (_increment s k WINDOW_MINUTE (_minute_bucket now))
           k WINDOW_DAY (_day_bucket now))
         k WINDOW_AI_DAY (_day_bucket now)) ∧
    ((check_and_increment_ai_request s k now f1 f2 f3 fc).1 ≠ .admitted →
       (check_and_increment_ai_request s k now f1 f2 f3 fc).2 = s) ∧
    ((f1 = false ∨ f2 = false ∨ f3 = false ∨ fc = false) →
       (check_and_increment_ai_request s k now f1 f2 f3 fc).1 ≠ .admitted) := by
  refine ⟨?_, ?_, ?_, ?_, ?_, ?_, ?_, ?_⟩
  · rw [check_request_eq]
    split_ifs <;> simp
  · rw [check_request_eq]
    split_ifs <;> simp
  · intro hf
    rcases hf with rfl | rfl | rfl <;>
      (rw [check_request_eq]; split_ifs <;> simp_all)
  · intro h1 h2 hf
    have hff : (f1 && f2 && fc) = false := by
      rcases hf with rfl | rfl | rfl <;> simp
    rw [check_request_eq, if_neg (Nat.not_le.mpr h1), if_neg (Nat.not_le.mpr h2),
      hff, if_neg Bool.false_ne_true]
  · intro reason h
    exact absurd h (by simp)
  · rw [check_ai_request_eq]
    split_ifs <;> simp
  · rw [check_ai_request_eq]
    split_ifs <;> simp
  · intro hf
    rcases hf with rfl | rfl | rfl | rfl <;>
      (rw [check_ai_request_eq]; split_ifs <;> simp_all)

/-- Witness for C5: with all windows fresh and a failing commit, the
invocation hard-fails without admitting and without committing any
increment. -/
theorem increments_commit_atomically_witness :
    check_and_increment_request (fun _ => 0) 9 ⟨2026, 2, 27, 10, 48, 30, 0⟩
      true true false = (.storageFailure, fun _ => 0) ∧
    (check_and_increment_ai_request (fun _ => 0) 9 ⟨2026, 2, 27, 10, 48, 30, 0⟩
      false true true true).1 ≠ .admitted := by
  constructor
  · exact (increments_commit_atomically (fun _ => 0) 9
      ⟨2026, 2, 27, 10, 48, 30, 0⟩ true true true false).2.2.2.1
      (by norm_num [RPM_LIMIT]) (by norm_num [RPD_LIMIT]) (Or.inr (Or.inr rfl))
  · exact (increments_commit_atomically (fun _ => 0) 9
      ⟨2026, 2, 27, 10, 48, 30, 0⟩ false true true true).2.2.2.2.2.2.2
      (Or.inl rfl)

/-- A denied check surfaces through `enforce_rate_limit` as the one
generic 429. -/
theorem enforce_denied (s : Store) (k : ℕ) (now : Timestamp)
    (f1 f2 fc : Bool) (r : String)
    (h : (check_and_increment_request s k now f1 f2 fc).1 = .denied r) :
    (enforce_rate_limit s k now f1 f2 fc).1 = .httpError _RATE_LIMITED := by
  unfold enforce_rate_limit
  rcases hc : check_and_increment_request s k now f1 f2 fc with ⟨st, s2⟩
  rw [hc] at h
  cases st <;> simp_all

/-- A denied AI check surfaces through `enforce_ai_rate_limit` as the one
generic 429. -/
theorem enforce_ai_denied (s : Store) (k : ℕ) (now : Timestamp)
    (f1 f2 f3 fc : Bool) (r : String)
    (h : (check_and_increment_ai_request s k now f1 f2 f3 fc).1 = .denied r) :
    (enforce_ai_rate_limit s k now f1 f2 f3 fc).1 = .httpError _RATE_LIMITED := by
  unfold enforce_ai_rate_limit
  rcases hc : check_and_increment_ai_request s k now f1 f2 f3 fc with ⟨st, s2⟩
  rw [hc] at h
  cases st <;> simp_all

/-- C7: whatever window trips, the caller-visible denial is the single
generic `_RATE_LIMITED` 429 with no indication of which window tripped:
any two denied requests — whichever of the minute, day or ai_day limits
caused each denial, and whichever of the two check functions ran — are
observably identical to the caller. -/
theorem denial_observably_generic
    (s1 s2 s3 : Store) (k1 k2 k3 : ℕ) (n1 n2 n3 : Timestamp)
    (r1 r2 r3 : String)
    (h1 : (check_and_increment_request s1 k1 n1 true true true).1 = .denied r1)
    (h2 : (check_and_increment_request s2 k2 n2 true true true).1 = .denied r2)
    (h3 : (check_and_increment_ai_request s3 k3 n3 true true true true).1 =
      .denied r3) :
    (enforce_rate_limit s1 k1 n1 true true true).1 = .httpError _RATE_LIMITED ∧
    (enforce_rate_limit s2 k2 n2 true true true).1 = .httpError _RATE_LIMITED ∧
    (enforce_ai_rate_limit s3 k3 n3 true true true true).1 =
      .httpError _RATE_LIMITED ∧
    (enforce_rate_limit s1 k1 n1 true true true).1 =
      (enforce_rate_limit s2 k2 n2 true true true).1 ∧
    (enforce_rate_limit s1 k1 n1 true true true).1 =
      (enforce_ai_rate_limit s3 k3 n3 true true true true).1 := by
  have e1 := enforce_denied s1 k1 n1 true true true r1 h1
  have e2 := enforce_denied s2 k2 n2 true true true r2 h2
  have e3 := enforce_ai_denied s3 k3 n3 true true true true r3 h3
  exact ⟨e1, e2, e3, by rw [e1, e2], by rw [e1, e3]⟩

/-- Witness for C7: one request denied by the minute window, one denied by
the day window and one denied by the ai_day window all surface as the
identical generic 429. -/
theorem denial_observably_generic_witness :
    (enforce_rate_limit (fun q => if q.window_type = WINDOW_MINUTE then 60 else 0)
       1 ⟨2026, 2, 27, 10, 48, 30, 0⟩ true true true).1 =
      .httpError _RATE_LIMITED ∧
    (enforce_rate_limit (fun q => if q.window_type = WINDOW_DAY then 5000 else 0)
       2 ⟨2026, 2, 27, 11, 49, 31, 1⟩ true true true).1 =
      .httpError _RATE_LIMITED ∧
    (enforce_ai_rate_limit (fun q => if q.window_type = WINDOW_AI_DAY then 20 else 0)
       3 ⟨2026, 2, 27, 12, 50, 32, 2⟩ true true true true).1 =
      .httpError _RATE_LIMITED ∧
    (enforce_rate_limit (fun q => if q.window_type = WINDOW_MINUTE then 60 else 0)
       1 ⟨2026, 2, 27, 10, 48, 30, 0⟩ true true true).1 =
      (enforce_rate_limit (fun q => if q.window_type = WINDOW_DAY then 5000 else 0)
       2 ⟨2026, 2, 27, 11, 49, 31, 1⟩ true true true).1 ∧
    (enforce_rate_limit (fun q => if q.window_type = WINDOW_MINUTE then 60 else 0)
       1 ⟨2026, 2, 27, 10, 48, 30, 0⟩ true true true).1 =
      (enforce_ai_rate_limit (fun q => if q.window_type = WINDOW_AI_DAY then 20 else 0)
       3 ⟨2026, 2, 27, 12, 50, 32, 2⟩ true true true true).1 :=
  denial_observably_generic
    (fun q => if q.window_type = WINDOW_MINUTE then 60 else 0)
    (fun q => if q.window_type = WINDOW_DAY then 5000 else 0)
    (fun q => if q.window_type = WINDOW_AI_DAY then 20 else 0)
    1 2 3
    ⟨2026, 2, 27, 10, 48, 30, 0⟩ ⟨2026, 2, 27, 11, 49, 31, 1⟩
    ⟨2026, 2, 27, 12, 50, 32, 2⟩
    "RPM limit exceeded" "RPD limit exceeded"
    "AI explanations/day limit exceeded"
    (by rw [check_request_eq, if_pos (by simp [WINDOW_MINUTE, RPM_LIMIT])])
    (by rw [check_request_eq,
        if_neg (by simp [WINDOW_MINUTE, WINDOW_DAY, RPM_LIMIT]),
        if_pos (by simp [WINDOW_DAY, RPD_LIMIT])])
    (by rw [check_ai_request_eq,
        if_neg (by simp [WINDOW_MINUTE, WINDOW_AI_DAY, RPM_LIMIT]),
        if_neg (by simp [WINDOW_DAY, WINDOW_AI_DAY, RPD_LIMIT]),
        if_pos (by simp [WINDOW_AI_DAY, AED_LIMIT])])

end RateLimiter

namespace Rollups

/-- Reading a table after a batch of upserts: the last upsert at a key
wins, keys outside the batch read the old row. -/
theorem upsertFold_apply {K V : Type} [DecidableEq K] (t : K → Option V)
    (keys : List K) (val : K → V) (q : K) :
    upsertFold t keys val q = if q ∈ keys then some (val q) else t q := by
  induction keys generalizing t with
  | nil => simp [upsertFold]
  | cons a l ih =>
      have hstep : upsertFold t (a :: l) val =
          upsertFold (fun q2 => if q2 = a then some (val a) else t q2) l val := rfl
      rw [hstep, ih]
      by_cases hq : q ∈ l
      · simp [hq]
      · by_cases hqa : q = a
        · subst hqa; simp [hq]
        · simp [hq, hqa]

/-- Reading a table after one grouped rollup pass. -/
theorem groupRollup_apply {K V : Type} [DecidableEq K] (key : UsageEvent → K)
    (mkVals : List UsageEvent → ℕ → V) (events : List UsageEvent)
    (d now : ℕ) (t : K → Option V) (q : K) :
    groupRollup key mkVals events d now t q =
      if q ∈ ((events.filter (matchesFilters d)).map key).dedup then
        some (mkVals
          (events.filter (fun e => matchesFilters d e && key e == q)) now)
      else t q :=
  upsertFold_apply t _ _ q

/-- Every upserted group key is the key of some event matching the date
and project filters. -/
theorem mem_rollup_keys {K : Type} [DecidableEq K] (key : UsageEvent → K)
    (events : List UsageEvent) (d : ℕ) (k : K)
    (h : k ∈ ((events.filter (matchesFilters d)).map key).dedup) :
    ∃ e, e ∈ events ∧ matchesFilters d e = true ∧ key e = k := by
  rw [List.mem_dedup] at h
  rcases List.mem_map.mp h with ⟨e, he, rfl⟩
  rcases List.mem_filter.mp he with ⟨he1, he2⟩
  exact ⟨e, he1, he2, rfl⟩

/-- An event passing the rollup filters has a project and the target
date. -/
theorem matchesFilters_spec (d : ℕ) (e : UsageEvent)
    (h : matchesFilters d e = true) :
    castDate e.timestamp = d ∧ e.project_id.isSome = true := by
  simp only [matchesFilters, Bool.and_eq_true, beq_iff_eq] at h
  exact h

/-- Filtering by a predicate that entails project ownership is unaffected
by first dropping ownerless events. -/
theorem filter_project_some (p : UsageEvent → Bool)
    (hp : ∀ e, p e = true → e.project_id.isSome = true)
    (events : List UsageEvent) :
    (events.filter (fun e => e.project_id.isSome)).filter p =
      events.filter p := by
  induction events with
  | nil => rfl
  | cons a l ih =>
      by_cases ha : p a = true
      · have hs := hp a ha
        simp [List.filter_cons, ha, hs, ih]
      · by_cases hs : a.project_id.isSome = true
        · simp [List.filter_cons, ha, hs, ih]
        · simp only [Bool.not_eq_true] at ha hs
          simp [List.filter_cons, ha, hs, ih]

/-- The left conjunct of a true Boolean conjunction. -/
theorem band_left {a b : Bool} (h : (a && b) = true) : a = true := by
  cases a <;> simp_all

/-- Rerunning one grouped rollup pass over the same events absorbs the
previous pass: only the later run time survives. -/
theorem groupRollup_absorb {K V : Type} [DecidableEq K] (key : UsageEvent → K)
    (mkVals : List UsageEvent → ℕ → V) (events : List UsageEvent)
    (d t1 t2 : ℕ) (t : K → Option V) :
    groupRollup key mkVals events d t2 (groupRollup key mkVals events d t1 t) =
      groupRollup key mkVals events d t2 t := by
  funext q
  rw [groupRollup_apply, groupRollup_apply, groupRollup_apply]
  by_cases hq : q ∈ ((events.filter (matchesFilters d)).map key).dedup <;>
    simp [hq]

/-- A grouped rollup pass with zero matching events is the identity. -/
theorem groupRollup_empty {K V : Type} [DecidableEq K] (key : UsageEvent → K)
    (mkVals : List UsageEvent → ℕ → V) (events : List UsageEvent)
    (d now : ℕ) (t : K → Option V)
    (h : events.filter (matchesFilters d) = []) :
    groupRollup key mkVals events d now t = t := by
  funext q
  rw [groupRollup_apply, h]
  simp

/-- A grouped rollup pass never touches keys outside the matching group
keys. -/
theorem groupRollup_frame {K V : Type} [DecidableEq K] (key : UsageEvent → K)
    (mkVals : List UsageEvent → ℕ → V) (events : List UsageEvent)
    (d now : ℕ) (t : K → Option V) (q : K)
    (h : q ∉ ((events.filter (matchesFilters d)).map key).dedup) :
    groupRollup key mkVals events d now t q = t q := by
  rw [groupRollup_apply, if_neg h]

/-- A grouped rollup pass only adds or overwrites rows, never deletes. -/
theorem groupRollup_no_delete {K V : Type} [DecidableEq K]
    (key : UsageEvent → K) (mkVals : List UsageEvent → ℕ → V)
    (events : List UsageEvent) (d now : ℕ) (t : K → Option V) (q : K) (v : V)
    (h : t q = some v) :
    ∃ v2, groupRollup key mkVals events d now t q = some v2 := by
  rw [groupRollup_apply]
  by_cases hq : q ∈ ((events.filter (matchesFilters d)).map key).dedup
  · exact ⟨_, if_pos hq⟩
  · exact ⟨v, by rw [if_neg hq, h]⟩

/-- Ownerless events contribute to no group and no aggregate: the pass
over the full log equals the pass over the owned events only. -/
theorem groupRollup_null_excluded {K V : Type} [DecidableEq K]
    (key : UsageEvent → K) (mkVals : List UsageEvent → ℕ → V)
    (events : List UsageEvent) (d now : ℕ) (t : K → Option V) :
    groupRollup key mkVals (events.filter (fun e => e.project_id.isSome))
        d now t =
      groupRollup key mkVals events d now t := by
  unfold groupRollup
  rw [filter_project_some (matchesFilters d)
    (fun e he => (matchesFilters_spec d e he).2) events]
  have hval : (fun k =>
      mkVals ((events.filter (fun e => e.project_id.isSome)).filter
        (fun e => matchesFilters d e && key e == k)) now) =
      (fun k =>
        mkVals (events.filter (fun e => matchesFilters d e && key e == k)) now) := by
    funext k
    rw [filter_project_some _
      (fun e he => (matchesFilters_spec d e (band_left he)).2) events]
  rw [hval]

end Rollups

namespace Rollups

/-- The daily component of one recompute. -/
theorem run_daily_rollups_daily (events : List UsageEvent) (d now : ℕ)
    (st : RollupState) :
    (run_daily_rollups events d now st).daily =
      _rollup_daily_cost events d now st.daily := rfl

/-- The model component of one recompute. -/
theorem run_daily_rollups_models (events : List UsageEvent) (d now : ℕ)
    (st : RollupState) :
    (run_daily_rollups events d now st).models =
      _rollup_model_cost events d now st.models := rfl

/-- The endpoint component of one recompute. -/
theorem run_daily_rollups_endpoints (events : List UsageEvent) (d now : ℕ)
    (st : RollupState) :
    (run_daily_rollups events d now st).endpoints =
      _rollup_endpoint_cost events d now st.endpoints := rfl

/-- Every daily row the pass writes is stamped with the run time. -/
theorem rollup_daily_updated_at (events : List UsageEvent) (d now : ℕ)
    (t : DailyTable) (k : DailyKey)
    (hk : k ∈ ((events.filter (matchesFilters d)).map dailyKey).dedup) :
    Option.map RollupVals.updated_at (_rollup_daily_cost events d now t k) =
      some now := by
  unfold _rollup_daily_cost
  rw [groupRollup_apply, if_pos hk]
  rfl

/-- C3 counterexample: recomputing twice over the unchanged log does NOT
produce byte-identical rows — the second run bumps the `updated_at`
column of the row it overwrites (`set_` always includes
`updated_at: func.now()`), so the same key holds a different row after
each run. -/
theorem recompute_twice_not_byte_identical :
    (run_daily_rollups [sampleEvent] 0 1
        (run_daily_rollups [sampleEvent] 0 0 emptyState)).daily
      ⟨0, "prod", some 1⟩ ≠
    (run_daily_rollups [sampleEvent] 0 0 emptyState).daily
      ⟨0, "prod", some 1⟩ := by
  have hk : (⟨0, "prod", some 1⟩ : DailyKey) ∈
      (([sampleEvent].filter (matchesFilters 0)).map dailyKey).dedup := by
    decide
  intro h
  have h2 := congrArg (Option.map RollupVals.updated_at) h
  rw [run_daily_rollups_daily, run_daily_rollups_daily,
    rollup_daily_updated_at [sampleEvent] 0 1 _ _ hk,
    rollup_daily_updated_at [sampleEvent] 0 0 _ _ hk] at h2
  simp at h2

/-- C3 (amended): recompute is idempotent up to the `updated_at` stamp —
a second run over the unchanged log absorbs the first entirely (so N runs
equal one run stamped with the last run time, and a re-run at the same
`func.now()` is byte-identical), and two consecutive runs agree on every
key and on every aggregate column, differing at most in `updated_at`. -/
theorem recompute_idempotent_up_to_updated_at (events : List UsageEvent)
    (d t1 t2 : ℕ) (st : RollupState) :
    (run_daily_rollups events d t2 (run_daily_rollups events d t1 st) =
       run_daily_rollups events d t2 st) ∧
    (run_daily_rollups events d t1 (run_daily_rollups events d t1 st) =
       run_daily_rollups events d t1 st) ∧
    (dailyVals (run_daily_rollups events d t2
        (run_daily_rollups events d t1 st)).daily =
       dailyVals (run_daily_rollups events d t1 st).daily) ∧
    (modelVals (run_daily_rollups events d t2
        (run_daily_rollups events d t1 st)).models =
       modelVals (run_daily_rollups events d t1 st).models) ∧
    (endpointVals (run_daily_rollups events d t2
        (run_daily_rollups events d t1 st)).endpoints =
       endpointVals (run_daily_rollups events d t1 st).endpoints) := by
  have haux : ∀ ta tb : ℕ,
      run_daily_rollups events d tb (run_daily_rollups events d ta st) =
        run_daily_rollups events d tb st := by
    intro ta tb
    simp only [run_daily_rollups, _rollup_daily_cost, _rollup_model_cost,
      _rollup_endpoint_cost]
    rw [groupRollup_absorb, groupRollup_absorb, groupRollup_absorb]
  refine ⟨haux t1 t2, haux t1 t1, ?_, ?_, ?_⟩
  · rw [haux t1 t2]
    funext k
    unfold dailyVals
    rw [run_daily_rollups_daily, run_daily_rollups_daily]
    unfold _rollup_daily_cost
    rw [groupRollup_apply, groupRollup_apply]
    by_cases hq : k ∈ ((events.filter (matchesFilters d)).map dailyKey).dedup <;>
      simp [hq, mkRollupVals]
  · rw [haux t1 t2]
    funext k
    unfold modelVals
    rw [run_daily_rollups_models, run_daily_rollups_models]
    unfold _rollup_model_cost
    rw [groupRollup_apply, groupRollup_apply]
    by_cases hq : k ∈ ((events.filter (matchesFilters d)).map modelKey).dedup <;>
      simp [hq, mkRollupVals]
  · rw [haux t1 t2]
    funext k
    unfold endpointVals
    rw [run_daily_rollups_endpoints, run_daily_rollups_endpoints]
    unfold _rollup_endpoint_cost
    rw [groupRollup_apply, groupRollup_apply]
    by_cases hq : k ∈ ((events.filter (matchesFilters d)).map endpointKey).dedup <;>
      simp [hq, mkEndpointVals]

end Rollups

namespace Rollups

/-- C4: after recompute for date `d`, every row of each of the three
rollup relations carries exactly the aggregates of the usage events
matching its own (date, dimension, environment, owner) key —
`total_cost_usd` the cost sum, `request_count` the event count, and
`total_tokens` the token sum where the relation has it: rows the pass
writes are exact by construction and correct pre-existing rows stay
correct; every row the pass touches is keyed by date `d` and a non-null
owner; and events with a null `project_id` are excluded outright — the
recompute over the full log equals the recompute over the owned events
only, so nothing is ever aggregated under a null owner. -/
theorem recompute_rows_are_event_sums (events : List UsageEvent)
    (d now : ℕ) (st : RollupState) :
    (DailyCorrect events st.daily →
       DailyCorrect events (run_daily_rollups events d now st).daily) ∧
    (ModelCorrect events st.models →
       ModelCorrect events (run_daily_rollups events d now st).models) ∧
    (EndpointCorrect events st.endpoints →
       EndpointCorrect events (run_daily_rollups events d now st).endpoints) ∧
    (∀ k : DailyKey,
       (run_daily_rollups events d now st).daily k ≠ st.daily k →
       k.project_id.isSome = true ∧ k.date = d) ∧
    (∀ k : ModelKey,
       (run_daily_rollups events d now st).models k ≠ st.models k →
       k.project_id.isSome = true ∧ k.date = d) ∧
    (∀ k : EndpointKey,
       (run_daily_rollups events d now st).endpoints k ≠ st.endpoints k →
       k.project_id.isSome = true ∧ k.date = d) ∧
    (run_daily_rollups (events.filter (fun e => e.project_id.isSome))
        d now st =
       run_daily_rollups events d now st) := by
  refine ⟨?_, ?_, ?_, ?_, ?_, ?_, ?_⟩
  · intro hC k v hv
    rw [run_daily_rollups_daily] at hv
    unfold _rollup_daily_cost at hv
    rw [groupRollup_apply] at hv
    by_cases hk : k ∈ ((events.filter (matchesFilters d)).map dailyKey).dedup
    · rw [if_pos hk] at hv
      obtain ⟨e, -, hm, hkey⟩ := mem_rollup_keys dailyKey events d k hk
      have hd : k.date = d := by
        rw [← hkey]
        exact (matchesFilters_spec d e hm).1
      injection hv with hv
      subst hv
      unfold dailyRowCorrect dailyGroup
      rw [hd]
      exact ⟨rfl, rfl, rfl⟩
    · rw [if_neg hk] at hv
      exact hC k v hv
  · intro hC k v hv
    rw [run_daily_rollups_models] at hv
    unfold _rollup_model_cost at hv
    rw [groupRollup_apply] at hv
    by_cases hk : k ∈ ((events.filter (matchesFilters d)).map modelKey).dedup
    · rw [if_pos hk] at hv
      obtain ⟨e, -, hm, hkey⟩ := mem_rollup_keys modelKey events d k hk
      have hd : k.date = d := by
        rw [← hkey]
        exact (matchesFilters_spec d e hm).1
      injection hv with hv
      subst hv
      unfold modelRowCorrect modelGroup
      rw [hd]
      exact ⟨rfl, rfl, rfl⟩
    · rw [if_neg hk] at hv
      exact hC k v hv
  · intro hC k v hv
    rw [run_daily_rollups_endpoints] at hv
    unfold _rollup_endpoint_cost at hv
    rw [groupRollup_apply] at hv
    by_cases hk : k ∈ ((events.filter (matchesFilters d)).map endpointKey).dedup
    · rw [if_pos hk] at hv
      obtain ⟨e, -, hm, hkey⟩ := mem_rollup_keys endpointKey events d k hk
      have hd : k.date = d := by
        rw [← hkey]
        exact (matchesFilters_spec d e hm).1
      injection hv with hv
      subst hv
      unfold endpointRowCorrect endpointGroup
      rw [hd]
      exact ⟨rfl, rfl⟩
    · rw [if_neg hk] at hv
      exact hC k v hv
  · intro k hne
    rw [run_daily_rollups_daily] at hne
    by_cases hk : k ∈ ((events.filter (matchesFilters d)).map dailyKey).dedup
    · obtain ⟨e, -, hm, hkey⟩ := mem_rollup_keys dailyKey events d k hk
      obtain ⟨hdate, hsome⟩ := matchesFilters_spec d e hm
      constructor
      · rw [← hkey]; exact hsome
      · rw [← hkey]; exact hdate
    · exact absurd (groupRollup_frame dailyKey mkRollupVals events d now
        st.daily k hk) hne
  · intro k hne
    rw [run_daily_rollups_models] at hne
    by_cases hk : k ∈ ((events.filter (matchesFilters d)).map modelKey).dedup
    · obtain ⟨e, -, hm, hkey⟩ := mem_rollup_keys modelKey events d k hk
      obtain ⟨hdate, hsome⟩ := matchesFilters_spec d e hm
      constructor
      · rw [← hkey]; exact hsome
      · rw [← hkey]; exact hdate
    · exact absurd (groupRollup_frame modelKey mkRollupVals events d now
        st.models k hk) hne
  · intro k hne
    rw [run_daily_rollups_endpoints] at hne
    by_cases hk : k ∈ ((events.filter (matchesFilters d)).map endpointKey).dedup
    · obtain ⟨e, -, hm, hkey⟩ := mem_rollup_keys endpointKey events d k hk
      obtain ⟨hdate, hsome⟩ := matchesFilters_spec d e hm
      constructor
      · rw [← hkey]; exact hsome
      · rw [← hkey]; exact hdate
    · exact absurd (groupRollup_frame endpointKey mkEndpointVals events d now
        st.endpoints k hk) hne
  · simp only [run_daily_rollups, _rollup_daily_cost, _rollup_model_cost,
      _rollup_endpoint_cost]
    rw [groupRollup_null_excluded, groupRollup_null_excluded,
      groupRollup_null_excluded]

/-- Witness for C4: recomputing day 0 over the one-event log from empty
tables yields only correct rows, and dropping ownerless events changes
nothing. -/
theorem recompute_rows_are_event_sums_witness :
    DailyCorrect [sampleEvent]
      ((run_daily_rollups [sampleEvent] 0 5 emptyState).daily) ∧
    run_daily_rollups ([sampleEvent].filter (fun e => e.project_id.isSome))
        0 5 emptyState =
      run_daily_rollups [sampleEvent] 0 5 emptyState :=
  ⟨(recompute_rows_are_event_sums [sampleEvent] 0 5 emptyState).1
      (fun _ _ h => Option.noConfusion h),
   (recompute_rows_are_event_sums [sampleEvent] 0 5 emptyState).2.2.2.2.2.2⟩

/-- C8: a recompute for a date with zero matching events performs zero
upserts and leaves every table exactly as it was; a recompute never
touches a row keyed by another date; and it never deletes — every row
present before is present (possibly overwritten) after. -/
theorem recompute_zero_events_and_other_dates_frame
    (events : List UsageEvent) (d now : ℕ) (st : RollupState) :
    (events.filter (matchesFilters d) = [] →
       run_daily_rollups events d now st = st) ∧
    (∀ k : DailyKey, k.date ≠ d →
       (run_daily_rollups events d now st).daily k = st.daily k) ∧
    (∀ k : ModelKey, k.date ≠ d →
       (run_daily_rollups events d now st).models k = st.models k) ∧
    (∀ k : EndpointKey, k.date ≠ d →
       (run_daily_rollups events d now st).endpoints k = st.endpoints k) ∧
    (∀ (k : DailyKey) (v : RollupVals), st.daily k = some v →
       ∃ v2, (run_daily_rollups events d now st).daily k = some v2) ∧
    (∀ (k : ModelKey) (v : RollupVals), st.models k = some v →
       ∃ v2, (run_daily_rollups events d now st).models k = some v2) ∧
    (∀ (k : EndpointKey) (v : EndpointVals), st.endpoints k = some v →
       ∃ v2, (run_daily_rollups events d now st).endpoints k = some v2) := by
  refine ⟨?_, ?_, ?_, ?_, ?_, ?_, ?_⟩
  · intro h
    simp only [run_daily_rollups, _rollup_daily_cost, _rollup_model_cost,
      _rollup_endpoint_cost]
    rw [groupRollup_empty _ _ _ _ _ _ h, groupRollup_empty _ _ _ _ _ _ h,
      groupRollup_empty _ _ _ _ _ _ h]
  · intro k hk
    rw [run_daily_rollups_daily]
    refine groupRollup_frame dailyKey mkRollupVals events d now st.daily k ?_
    intro hmem
    obtain ⟨e, -, hm, hkey⟩ := mem_rollup_keys dailyKey events d k hmem
    exact hk (by rw [← hkey]; exact (matchesFilters_spec d e hm).1)
  · intro k hk
    rw [run_daily_rollups_models]
    refine groupRollup_frame modelKey mkRollupVals events d now st.models k ?_
    intro hmem
    obtain ⟨e, -, hm, hkey⟩ := mem_rollup_keys modelKey events d k hmem
    exact hk (by rw [← hkey]; exact (matchesFilters_spec d e hm).1)
  · intro k hk
    rw [run_daily_rollups_endpoints]
    refine groupRollup_frame endpointKey mkEndpointVals events d now
      st.endpoints k ?_
    intro hmem
    obtain ⟨e, -, hm, hkey⟩ := mem_rollup_keys endpointKey events d k hmem
    exact hk (by rw [← hkey]; exact (matchesFilters_spec d e hm).1)
  · intro k v hv
    rw [run_daily_rollups_daily]
    exact groupRollup_no_delete dailyKey mkRollupVals events d now
      st.daily k v hv
  · intro k v hv
    rw [run_daily_rollups_models]
    exact groupRollup_no_delete modelKey mkRollupVals events d now
      st.models k v hv
  · intro k v hv
    rw [run_daily_rollups_endpoints]
    exact groupRollup_no_delete endpointKey mkEndpointVals events d now
      st.endpoints k v hv

/-- Witness for C8: recomputing day 1 over a log holding only a day-0
event changes nothing, and recomputing day 0 leaves a day-1 key
untouched. -/
theorem recompute_zero_events_and_other_dates_frame_witness :
    run_daily_rollups [sampleEvent] 1 5 emptyState = emptyState ∧
    (run_daily_rollups [sampleEvent] 0 5 emptyState).daily
        ⟨1, "prod", some 1⟩ =
      emptyState.daily ⟨1, "prod", some 1⟩ :=
  ⟨(recompute_zero_events_and_other_dates_frame [sampleEvent] 1 5
      emptyState).1 rfl,
   (recompute_zero_events_and_other_dates_frame [sampleEvent] 0 5
      emptyState).2.1 ⟨1, "prod", some 1⟩ (by decide)⟩

end Rollups
